import Mathlib

/-!
Shallow embedding of `bubble_plot.py` (module generating LaTeX bubble plots).

Python dictionaries are modelled as insertion-ordered association lists
(`List (key × value)`): lookup scans from the front, updating an existing key
keeps its position, and a fresh key is appended at the back — exactly the
observable behaviour of `dict` in Python 3.7+.  Python sets of strings are
modelled as duplicate-free lists, since the code only observes them through
`len` and `sorted`.  A `KeyError` is modelled by the `Err` type, and fallible
code returns `Except Err _`.  Python string comparison is lexicographic by
code point, embedded here as the executable order `pyLe`.  Python `//` on
ints is floor division, i.e. `Int.fdiv`.
-/

namespace BubblePlotPy

/-- Lookup in an association list: first pair whose key equals `k`. -/
def alookup {α β : Type} [DecidableEq α] (k : α) : List (α × β) → Option β
  | [] => none
  | (k', v) :: rest => if k' = k then some v else alookup k rest

/-- Lexicographic comparison of character lists by code point, as Python
compares strings. -/
def lexLeB : List Char → List Char → Bool
  | [], _ => true
  | _ :: _, [] => false
  | a :: as, b :: bs =>
    if a.toNat < b.toNat then true
    else if b.toNat < a.toNat then false
    else lexLeB as bs

/-- Python `a <= b` on strings: lexicographic by code point. -/
def pyLe (a b : String) : Prop := lexLeB a.data b.data = true

instance : DecidableRel pyLe :=
  fun a b => instDecidableEqBool (lexLeB a.data b.data) true

/-- Which axis an error message points at (`"... on the x axis"` / `"... on the y axis"`). -/
inductive Axis
  | x
  | y
deriving DecidableEq, Repr

/-- Errors raised by the Python code: `KeyError` with the custom facet message,
a plain `KeyError` from a dict subscript, and `ZeroDivisionError`. -/
inductive Err
  | unknownFacet (name : String) (axis : Axis)
  | missingKey (name : String)
  | divisionByZero
deriving DecidableEq, Repr

/-- A record (one input entry): a string-keyed mapping of string values. -/
abbrev Record := List (String × String)

/-- Facets of a plot: `Facets(y, x_left, x_right)`. -/
structure Facets where
  y : String
  x_left : String
  x_right : String
deriving DecidableEq, Repr

/-- Settings of the plot (`Config` in the source; the color map and file-system
fields are irrelevant to the data computations and carried as plain data). -/
structure Config where
  x_left_offset : Int
  x_right_offset : Int
  class_year : String
  field_names : List String
  latex_template : String
  output_dir : String
deriving DecidableEq, Repr

/-- Python `min` on two strings: the first argument when `a <= b`, else the second. -/
def minStr (a b : String) : String := if pyLe a b then a else b

/-- Occurrence of a bubble: a counter plus the earliest year seen. -/
structure Occurrence where
  occurrence : Nat
  year : String
deriving DecidableEq, Repr

/-- Constructor `Occurrence(year)`: count starts at 1. -/
def Occurrence.init (year : String) : Occurrence := ⟨1, year⟩

/-- Method `Occurrence.update`: increment the count and keep the smaller year. -/
def Occurrence.update (o : Occurrence) (new_year : String) : Occurrence :=
  ⟨o.occurrence + 1, minStr o.year new_year⟩

/-- A bubble key: the pair of x and y tick labels. -/
structure Bubble where
  label_x : String
  label_y : String
deriving DecidableEq, Repr

/-- One side of the split x axis: its facet name and its bubble dictionary. -/
structure SplitXAxis where
  facet : String
  bubbles : List (Bubble × Occurrence)
deriving DecidableEq, Repr

/-- Body of `SplitXAxis.update` once both labels are known: `if bubble in
self.bubbles: self.bubbles[bubble].update(year) else: self.bubbles[bubble] =
Occurrence(year)`.  In-place update keeps the position; a new key is appended. -/
def bumpBubble (b : Bubble) (year : String) :
    List (Bubble × Occurrence) → List (Bubble × Occurrence)
  | [] => [(b, Occurrence.init year)]
  | (b', o) :: rest =>
    if b' = b then (b', o.update year) :: rest else (b', o) :: bumpBubble b year rest

/-- Method `SplitXAxis.update`: look up the x label (raising a `KeyError`
naming the facet and the x axis when absent), then the y label (naming the y
axis), then update the bubble dictionary. -/
def SplitXAxis.update (s : SplitXAxis) (entry : Record) (year : String)
    (y_axis : String) : Except Err SplitXAxis :=
  match alookup s.facet entry with
  | none => .error (.unknownFacet s.facet .x)
  | some label_x =>
    match alookup y_axis entry with
    | none => .error (.unknownFacet y_axis .y)
    | some label_y => .ok ⟨s.facet, bumpBubble ⟨label_x, label_y⟩ year s.bubbles⟩

/-- Facets on the two sides of the x axis. -/
structure XAxis where
  left : SplitXAxis
  right : SplitXAxis
deriving DecidableEq, Repr

/-- A bubble plot: both x-axis sides plus the y facet name. -/
structure BubblePlot where
  x_axis : XAxis
  y_axis : String
deriving DecidableEq, Repr

/-- Constructor `BubblePlot(facets)`: both sides start with empty dictionaries. -/
def BubblePlot.init (facets : Facets) : BubblePlot :=
  ⟨⟨⟨facets.x_left, []⟩, ⟨facets.x_right, []⟩⟩, facets.y⟩

/-- Method `BubblePlot.update`, with Python's mutation made explicit: the left
side is updated first, then the right side; an exception leaves the state as
mutated so far.  Returns the state at exit together with the raised error. -/
def BubblePlot.updateState (p : BubblePlot) (entry : Record) (year : String) :
    BubblePlot × Option Err :=
  match p.x_axis.left.update entry year p.y_axis with
  | .error e => (p, some e)
  | .ok left' =>
    match p.x_axis.right.update entry year p.y_axis with
    | .error e => (⟨⟨left', p.x_axis.right⟩, p.y_axis⟩, some e)
    | .ok right' => (⟨⟨left', right'⟩, p.y_axis⟩, none)

/-- Method `BubblePlot.update` as a fallible function (the caller's view). -/
def BubblePlot.update (p : BubblePlot) (entry : Record) (year : String) :
    Except Err BubblePlot :=
  match p.updateState entry year with
  | (p', none) => .ok p'
  | (_, some e) => .error e

/-- Python `set.add` on the year set: append the element when absent. -/
def addYear (y : String) (ys : List String) : List String :=
  if y ∈ ys then ys else ys ++ [y]

/-- Loop of `compute_occurences_from`, with the state (plot and year set) at
the time an exception is raised made explicit: per entry, read
`entry[conf.class_year]` (a `KeyError` names that key), update the plot
(stopping with the state mutated so far on error), then add the year. -/
def computeOccAux (conf : Config) :
    List Record → BubblePlot → List String →
    (BubblePlot × List String) × Option Err
  | [], p, years => ((p, years), none)
  | entry :: rest, p, years =>
    match alookup conf.class_year entry with
    | none => ((p, years), some (.missingKey conf.class_year))
    | some year =>
      match p.updateState entry year with
      | (p', some e) => ((p', years), some e)
      | (p', none) => computeOccAux conf rest p' (addYear year years)

/-- Function `compute_occurences_from`: fold all entries into a fresh plot and
the set of years, propagating the first error. -/
def compute_occurences_from (entries : List Record) (plot_plan : Facets)
    (conf : Config) : Except Err (BubblePlot × List String) :=
  match computeOccAux conf entries (BubblePlot.init plot_plan) [] with
  | (st, none) => .ok st
  | (_, some e) => .error e

/-- Writer of the CSV data (`CSVWriter`). -/
structure CSVWriter where
  plot : BubblePlot
  years : List String
  conf : Config

/-- Loop of `compute_year_score_mapping`: successive years get `idx`,
`idx + incr`, `idx + 2*incr`, ... in list order. -/
def scoreList (incr : Int) : List String → Int → List (String × Int)
  | [], _ => []
  | y :: rest, idx => (y, idx) :: scoreList incr rest (idx + incr)

/-- Method `CSVWriter.compute_year_score_mapping`: `incr = 1000 // (len(years) - 1)`
(a `ZeroDivisionError` when there is exactly one year), then assign scores to
the years in ascending order. -/
def CSVWriter.compute_year_score_mapping (w : CSVWriter) :
    Except Err (List (String × Int)) :=
  let d : Int := (w.years.length : Int) - 1
  if d = 0 then .error .divisionByZero
  else .ok (scoreList (Int.fdiv 1000 d) (List.insertionSort pyLe w.years) 0)

/-- Python `{label: f(i) for i, label in enumerate(labels)}` starting at index `i`. -/
def posList (f : Nat → Int) : List String → Nat → List (String × Int)
  | [], _ => []
  | label :: rest, i => (label, f i) :: posList f rest (i + 1)

/-- Python `sorted(set(l))`: the distinct elements in ascending order. -/
def sortedLabels (l : List String) : List String :=
  List.insertionSort pyLe l.dedup

/-- Method `CSVWriter.compute_labels_indices_mapping`: left x labels get
`-(n - i + x_left_offset)`, right x labels get `i + x_right_offset`, and the
y labels (collected from the right then the left side) get `i`. -/
def CSVWriter.compute_labels_indices_mapping (w : CSVWriter) :
    List (String × Int) × List (String × Int) × List (String × Int) :=
  let labels_x_left :=
    sortedLabels (w.plot.x_axis.left.bubbles.map fun p => p.1.label_x)
  let labels_x_left_len := labels_x_left.length
  let x_left_mapping :=
    posList (fun i => -((labels_x_left_len : Int) - i + w.conf.x_left_offset))
      labels_x_left 0
  let labels_x_right :=
    sortedLabels (w.plot.x_axis.right.bubbles.map fun p => p.1.label_x)
  let x_right_mapping :=
    posList (fun i => (i : Int) + w.conf.x_right_offset) labels_x_right 0
  let labels_y :=
    sortedLabels
      ((w.plot.x_axis.right.bubbles ++ w.plot.x_axis.left.bubbles).map
        fun p => p.1.label_y)
  let y_mapping := posList (fun i => (i : Int)) labels_y 0
  (x_left_mapping, x_right_mapping, y_mapping)

/-- One CSV data row: y index, x index, occurrence count, year score. -/
abbrev Row := Int × Int × Int × Int

/-- Inner loop of `prepared_bubbles_data` over one side's bubbles, with the
dict subscripts evaluated in Python order (y label, x label, year). -/
def rowsFor (bs : List (Bubble × Occurrence))
    (x_mapping y_mapping year_mapping : List (String × Int)) :
    Except Err (List Row) :=
  match bs with
  | [] => .ok []
  | (b, o) :: rest =>
    match alookup b.label_y y_mapping with
    | none => .error (.missingKey b.label_y)
    | some y_idx =>
      match alookup b.label_x x_mapping with
      | none => .error (.missingKey b.label_x)
      | some x_idx =>
        match alookup o.year year_mapping with
        | none => .error (.missingKey o.year)
        | some score =>
          match rowsFor rest x_mapping y_mapping year_mapping with
          | .error e => .error e
          | .ok rows => .ok ((y_idx, x_idx, (o.occurrence : Int), score) :: rows)

/-- Method `CSVWriter.prepared_bubbles_data`: the rows of the left side (in
dictionary insertion order) followed by the rows of the right side. -/
def CSVWriter.prepared_bubbles_data (w : CSVWriter)
    (x_left_mapping x_right_mapping y_mapping year_mapping : List (String × Int)) :
    Except Err (List Row) :=
  match rowsFor w.plot.x_axis.left.bubbles x_left_mapping y_mapping year_mapping with
  | .error e => .error e
  | .ok left_rows =>
    match rowsFor w.plot.x_axis.right.bubbles x_right_mapping y_mapping year_mapping with
    | .error e => .error e
    | .ok right_rows => .ok (left_rows ++ right_rows)

/-- Sort key of `sorted(bubbles_data, key=lambda t: t[1])`: the x index. -/
def rowKey (t : Row) : Int := t.2.1

/-- Comparison used to model Python's stable `sorted` with key `t[1]`. -/
def rowLE (a b : Row) : Prop := rowKey a ≤ rowKey b

instance : DecidableRel rowLE := fun x y => Int.decLe (rowKey x) (rowKey y)

instance : IsTotal Row rowLE := ⟨fun a b => le_total (rowKey a) (rowKey b)⟩

instance : IsTrans Row rowLE := ⟨fun _ _ _ h h' => le_trans h h'⟩

/-- Data part of `CSVWriter.save_plot`: compute the label and year mappings,
prepare the bubble rows, and sort them by x index with a stable sort (Python's
`sorted` is stable; a stable sort by one key is unique, so insertion sort
models it exactly). -/
def CSVWriter.save_plot_data (w : CSVWriter) : Except Err (List Row) :=
  match w.compute_labels_indices_mapping with
  | (x_left_mapping, x_right_mapping, y_mapping) =>
    match w.compute_year_score_mapping with
    | .error e => .error e
    | .ok year_score =>
      match w.prepared_bubbles_data x_left_mapping x_right_mapping y_mapping year_score with
      | .error e => .error e
      | .ok bubbles_data => .ok (List.insertionSort rowLE bubbles_data)

/-!  Specification-side vocabulary used to state the claims. -/

/-- Records whose facet values form exactly the pair of labels of `b`. -/
def contribFor (facet y_axis : String) (entries : List Record) (b : Bubble) :
    List Record :=
  entries.filter fun e =>
    decide (alookup facet e = some b.label_x ∧ alookup y_axis e = some b.label_y)

/-- Year values of a list of records (the records are assumed to carry the field). -/
def yearsOfRecords (class_year : String) (entries : List Record) : List String :=
  entries.filterMap (alookup class_year)

/-- Bubble/year observations extracted from the records on one side. -/
def obsOf (facet y_axis class_year : String) (entries : List Record) :
    List (Bubble × String) :=
  entries.filterMap fun e =>
    match alookup facet e, alookup y_axis e, alookup class_year e with
    | some lx, some ly, some yr => some (⟨lx, ly⟩, yr)
    | _, _, _ => none

/-- Folding observations into a bubble dictionary, starting from `bs`. -/
def foldBump (bs : List (Bubble × Occurrence)) (obs : List (Bubble × String)) :
    List (Bubble × Occurrence) :=
  obs.foldl (fun acc t => bumpBubble t.1 t.2 acc) bs

/-- The bubble dictionary built from a list of observations. -/
def aggObs (obs : List (Bubble × String)) : List (Bubble × Occurrence) :=
  foldBump [] obs

/-- Observations contributing to bubble `b`. -/
def obsContrib (obs : List (Bubble × String)) (b : Bubble) :
    List (Bubble × String) :=
  obs.filter fun t => decide (t.1 = b)

/-- Minimum year of a nonempty list of observations (left fold of `minStr`). -/
def minYearsObs (c : List (Bubble × String)) : String :=
  match c with
  | [] => ""
  | t :: rest => rest.foldl (fun acc t' => minStr acc t'.2) t.2

/-- The occurrence a bubble dictionary must associate to `b` after seeing `obs`. -/
def obsSpec (obs : List (Bubble × String)) (b : Bubble) : Option Occurrence :=
  let c := obsContrib obs b
  if c = [] then none else some ⟨c.length, minYearsObs c⟩

/-- Requirement on every record: the three facet fields and the year field. -/
def hasAllFields (plan : Facets) (conf : Config) (e : Record) : Prop :=
  (alookup plan.x_left e).isSome ∧ (alookup plan.x_right e).isSome ∧
    (alookup plan.y e).isSome ∧ (alookup conf.class_year e).isSome

instance (plan : Facets) (conf : Config) (e : Record) :
    Decidable (hasAllFields plan conf e) := by
  unfold hasAllFields
  infer_instance

/-- Distinct left-side x labels in ascending order. -/
def leftLabels (w : CSVWriter) : List String :=
  sortedLabels (w.plot.x_axis.left.bubbles.map fun p => p.1.label_x)

/-- Distinct right-side x labels in ascending order. -/
def rightLabels (w : CSVWriter) : List String :=
  sortedLabels (w.plot.x_axis.right.bubbles.map fun p => p.1.label_x)

/-- Distinct y labels (both sides) in ascending order. -/
def yLabels (w : CSVWriter) : List String :=
  sortedLabels
    ((w.plot.x_axis.right.bubbles ++ w.plot.x_axis.left.bubbles).map
      fun p => p.1.label_y)

/-!  Concrete fixtures (the worked scenario of the specification, §8). -/

/-- Example configuration: offsets 1 and 2, year field `"year"`. -/
def confEx : Config := ⟨1, 2, "year", [], "", ""⟩

/-- Example facet plan. -/
def planEx : Facets := ⟨"Y", "XL", "XR"⟩

/-- Example records of the specification's worked scenario. -/
def entriesEx : List Record :=
  [[("Y", "0"), ("XL", "1"), ("XR", "2"), ("year", "2018")],
   [("Y", "3"), ("XL", "4"), ("XR", "4"), ("year", "2020")],
   [("Y", "6"), ("XL", "7"), ("XR", "7"), ("year", "2019")]]

/-- The plot obtained by aggregating `entriesEx`. -/
def plotEx : BubblePlot :=
  ⟨⟨⟨"XL", [(⟨"1", "0"⟩, ⟨1, "2018"⟩), (⟨"4", "3"⟩, ⟨1, "2020"⟩),
            (⟨"7", "6"⟩, ⟨1, "2019"⟩)]⟩,
    ⟨"XR", [(⟨"2", "0"⟩, ⟨1, "2018"⟩), (⟨"4", "3"⟩, ⟨1, "2020"⟩),
            (⟨"7", "6"⟩, ⟨1, "2019"⟩)]⟩⟩, "Y"⟩

/-- The year set obtained by aggregating `entriesEx`. -/
def yearsEx : List String := ["2018", "2020", "2019"]

/-- Example writer over the aggregated scenario. -/
def wEx : CSVWriter := ⟨plotEx, yearsEx, confEx⟩

/-- Example writer with a single year. -/
def wEx1 : CSVWriter := ⟨plotEx, ["2018"], confEx⟩

/-- Example writer with no years. -/
def wEx0 : CSVWriter := ⟨plotEx, [], confEx⟩

/-- A record that lacks the right x facet field `"XR"`. -/
def entryNoXR : Record := [("Y", "0"), ("XL", "1"), ("year", "2018")]

/-- A record that lacks the year field `"year"`. -/
def badRecEx : Record := [("Y", "3"), ("XL", "4"), ("XR", "4")]

/-- A permutation of `entriesEx`. -/
def entriesExPerm : List Record :=
  [[("Y", "3"), ("XL", "4"), ("XR", "4"), ("year", "2020")],
   [("Y", "6"), ("XL", "7"), ("XR", "7"), ("year", "2019")],
   [("Y", "0"), ("XL", "1"), ("XR", "2"), ("year", "2018")]]

/-- The plot obtained by aggregating `entriesExPerm`. -/
def plotExPerm : BubblePlot :=
  ⟨⟨⟨"XL", [(⟨"4", "3"⟩, ⟨1, "2020"⟩), (⟨"7", "6"⟩, ⟨1, "2019"⟩),
            (⟨"1", "0"⟩, ⟨1, "2018"⟩)]⟩,
    ⟨"XR", [(⟨"4", "3"⟩, ⟨1, "2020"⟩), (⟨"7", "6"⟩, ⟨1, "2019"⟩),
            (⟨"2", "0"⟩, ⟨1, "2018"⟩)]⟩⟩, "Y"⟩

/-- The year set obtained by aggregating `entriesExPerm`. -/
def yearsExPerm : List String := ["2020", "2019", "2018"]

end BubblePlotPy

namespace BubblePlotPy

/-!  Order lemmas for `pyLe`. -/

theorem lexLeB_refl (l : List Char) : lexLeB l l = true := by
  induction l with
  | nil => rfl
  | cons a as ih => simp [lexLeB, ih]

theorem lexLeB_total (l m : List Char) : lexLeB l m = true ∨ lexLeB m l = true := by
  induction l generalizing m with
  | nil => exact Or.inl rfl
  | cons a as ih =>
    cases m with
    | nil => exact Or.inr rfl
    | cons b bs =>
      rcases Nat.lt_trichotomy a.toNat b.toNat with h | h | h
      · exact Or.inl (by simp [lexLeB, h])
      · rcases ih bs with h' | h'
        · exact Or.inl (by simp [lexLeB, h, Nat.lt_irrefl, h'])
        · exact Or.inr (by simp [lexLeB, h, Nat.lt_irrefl, h'])
      · exact Or.inr (by simp [lexLeB, h])

theorem lexLeB_trans {l m n : List Char} (h1 : lexLeB l m = true)
    (h2 : lexLeB m n = true) : lexLeB l n = true := by
  induction l generalizing m n with
  | nil => rfl
  | cons a as ih =>
    cases m with
    | nil => simp [lexLeB] at h1
    | cons b bs =>
      cases n with
      | nil => simp [lexLeB] at h2
      | cons c cs =>
        by_cases hab : a.toNat < b.toNat
        · by_cases hbc : b.toNat < c.toNat
          · have hac : a.toNat < c.toNat := Nat.lt_trans hab hbc
            simp [lexLeB, hac]
          · by_cases hcb : c.toNat < b.toNat
            · simp [lexLeB, hcb, Nat.lt_asymm hcb] at h2
            · have hac : a.toNat < c.toNat := by omega
              simp [lexLeB, hac]
        · by_cases hba : b.toNat < a.toNat
          · simp [lexLeB, hab, hba] at h1
          · have h1' : lexLeB as bs = true := by
              simpa [lexLeB, hab, hba] using h1
            by_cases hbc : b.toNat < c.toNat
            · have hac : a.toNat < c.toNat := by omega
              simp [lexLeB, hac]
            · by_cases hcb : c.toNat < b.toNat
              · simp [lexLeB, hcb, Nat.lt_asymm hcb] at h2
              · have h2' : lexLeB bs cs = true := by
                  simpa [lexLeB, hbc, hcb] using h2
                have hac : ¬ a.toNat < c.toNat := by omega
                have hca : ¬ c.toNat < a.toNat := by omega
                simpa [lexLeB, hac, hca] using ih h1' h2'

theorem char_toNat_inj {a b : Char} (h : a.toNat = b.toNat) : a = b :=
  Char.ext (UInt32.toNat.inj h)

theorem lexLeB_antisymm {l m : List Char} (h1 : lexLeB l m = true)
    (h2 : lexLeB m l = true) : l = m := by
  induction l generalizing m with
  | nil =>
    cases m with
    | nil => rfl
    | cons b bs => simp [lexLeB] at h2
  | cons a as ih =>
    cases m with
    | nil => simp [lexLeB] at h1
    | cons b bs =>
      rcases Nat.lt_trichotomy a.toNat b.toNat with hab | hab | hab
      · simp [lexLeB, hab, Nat.lt_asymm hab] at h2
      · have hc : a = b := char_toNat_inj hab
        subst hc
        have h1' : lexLeB as bs = true := by simpa [lexLeB] using h1
        have h2' : lexLeB bs as = true := by simpa [lexLeB] using h2
        rw [ih h1' h2']
      · simp [lexLeB, hab, Nat.lt_asymm hab] at h1

theorem pyLe_refl (a : String) : pyLe a a := lexLeB_refl a.data

theorem pyLe_total (a b : String) : pyLe a b ∨ pyLe b a := lexLeB_total a.data b.data

theorem pyLe_trans {a b c : String} (h1 : pyLe a b) (h2 : pyLe b c) : pyLe a c :=
  lexLeB_trans h1 h2

theorem pyLe_antisymm {a b : String} (h1 : pyLe a b) (h2 : pyLe b a) : a = b := by
  have hd : a.data = b.data := lexLeB_antisymm h1 h2
  cases a
  cases b
  exact congrArg String.mk (by simpa using hd)

instance : IsTotal String pyLe := ⟨pyLe_total⟩

instance : IsTrans String pyLe := ⟨fun _ _ _ => pyLe_trans⟩

theorem minStr_le_left (a b : String) : pyLe (minStr a b) a := by
  unfold minStr
  by_cases h : pyLe a b
  · simpa [h] using pyLe_refl a
  · rcases pyLe_total a b with h' | h'
    · exact absurd h' h
    · simpa [h] using h'

theorem minStr_le_right (a b : String) : pyLe (minStr a b) b := by
  unfold minStr
  by_cases h : pyLe a b
  · simp [h]
  · simpa [h] using pyLe_refl b

theorem minStr_eq_or (a b : String) : minStr a b = a ∨ minStr a b = b := by
  unfold minStr
  by_cases h : pyLe a b <;> simp [h]

/-!  Association-list and index-assignment lemmas. -/

theorem alookup_eq_none_iff {α β : Type} [DecidableEq α] (k : α)
    (l : List (α × β)) : alookup k l = none ↔ k ∉ l.map Prod.fst := by
  induction l with
  | nil => simp [alookup]
  | cons hd tl ih =>
    obtain ⟨k', v⟩ := hd
    by_cases h : k' = k
    · subst h
      simp [alookup]
    · simp [alookup, h, ih, Ne.symm h]

theorem map_fst_posList (f : Nat → Int) (l : List String) (i : Nat) :
    (posList f l i).map Prod.fst = l := by
  induction l generalizing i with
  | nil => rfl
  | cons a rest ih => simp [posList, ih]

theorem alookup_posList (f : Nat → Int) (l : List String) (hnd : l.Nodup)
    (i j : Nat) (h : j < l.length) :
    alookup l[j] (posList f l i) = some (f (i + j)) := by
  induction l generalizing i j with
  | nil => simp at h
  | cons a rest ih =>
    cases j with
    | zero => simp [posList, alookup]
    | succ j' =>
      have hj' : j' < rest.length := by simpa using h
      have ha : a ∉ rest := (List.nodup_cons.mp hnd).1
      have hmem : rest[j'] ∈ rest := List.getElem_mem hj'
      have hne : a ≠ rest[j'] := fun hEq => ha (hEq ▸ hmem)
      have hget : (a :: rest)[j' + 1] = rest[j'] := by simp
      have harith : i + (j' + 1) = i + 1 + j' := by omega
      rw [hget, harith, posList, alookup, if_neg hne,
        ih (List.nodup_cons.mp hnd).2 (i + 1) j' hj']

theorem mem_snd_posList (f : Nat → Int) (l : List String) (i : Nat) (v : Int)
    (hv : v ∈ (posList f l i).map Prod.snd) : ∃ j, j < l.length ∧ v = f (i + j) := by
  induction l generalizing i with
  | nil => simp [posList] at hv
  | cons a rest ih =>
    simp only [posList, List.map_cons, List.mem_cons] at hv
    rcases hv with h | h
    · exact ⟨0, by simp, by simpa using h⟩
    · obtain ⟨j, hj, hjv⟩ := ih (i + 1) h
      exact ⟨j + 1, by simpa using hj, by rw [hjv]; congr 1; omega⟩

theorem map_fst_scoreList (incr : Int) (l : List String) (idx : Int) :
    (scoreList incr l idx).map Prod.fst = l := by
  induction l generalizing idx with
  | nil => rfl
  | cons a rest ih => simp [scoreList, ih]

theorem alookup_scoreList (incr : Int) (l : List String) (hnd : l.Nodup)
    (idx : Int) (j : Nat) (h : j < l.length) :
    alookup l[j] (scoreList incr l idx) = some (idx + j * incr) := by
  induction l generalizing idx j with
  | nil => simp at h
  | cons a rest ih =>
    cases j with
    | zero => simp [scoreList, alookup]
    | succ j' =>
      have hj' : j' < rest.length := by simpa using h
      have ha : a ∉ rest := (List.nodup_cons.mp hnd).1
      have hmem : rest[j'] ∈ rest := List.getElem_mem hj'
      have hne : a ≠ rest[j'] := fun hEq => ha (hEq ▸ hmem)
      have hget : (a :: rest)[j' + 1] = rest[j'] := by simp
      rw [hget, scoreList, alookup, if_neg hne,
        ih (List.nodup_cons.mp hnd).2 (idx + incr) j' hj']
      congr 1
      push_cast
      ring

theorem sortedLabels_nodup (l : List String) : (sortedLabels l).Nodup :=
  (List.perm_insertionSort _ _).symm.nodup l.nodup_dedup

theorem sortedLabels_sorted (l : List String) :
    List.Sorted pyLe (sortedLabels l) :=
  List.sorted_insertionSort _ _

theorem mem_sortedLabels {l : List String} {a : String} :
    a ∈ sortedLabels l ↔ a ∈ l := by
  simp [sortedLabels, List.mem_insertionSort, List.mem_dedup]

/-- C2: `compute_labels_indices_mapping` returns exactly these three mappings:
the keys of the left mapping are the distinct left x labels sorted ascending
and the i-th maps to `-(n - i + x_left_offset)`; the keys of the right mapping
are the distinct right x labels sorted ascending and the i-th maps to
`i + x_right_offset`; the keys of the y mapping are the distinct y labels of
both sides sorted ascending and the i-th maps to `i`. -/
theorem labels_indices_mapping_spec (w : CSVWriter) :
    (w.compute_labels_indices_mapping.1.map Prod.fst = leftLabels w ∧
      ∀ j, (hj : j < (leftLabels w).length) →
        alookup (leftLabels w)[j] w.compute_labels_indices_mapping.1 =
          some (-(((leftLabels w).length : Int) - (j : Int) + w.conf.x_left_offset))) ∧
    (w.compute_labels_indices_mapping.2.1.map Prod.fst = rightLabels w ∧
      ∀ j, (hj : j < (rightLabels w).length) →
        alookup (rightLabels w)[j] w.compute_labels_indices_mapping.2.1 =
          some ((j : Int) + w.conf.x_right_offset)) ∧
    (w.compute_labels_indices_mapping.2.2.map Prod.fst = yLabels w ∧
      ∀ j, (hj : j < (yLabels w).length) →
        alookup (yLabels w)[j] w.compute_labels_indices_mapping.2.2 =
          some (j : Int)) := by
  refine ⟨⟨?_, fun j hj => ?_⟩, ⟨?_, fun j hj => ?_⟩, ⟨?_, fun j hj => ?_⟩⟩
  · exact map_fst_posList _ _ _
  · have h :=
      alookup_posList
        (fun i => -(((leftLabels w).length : Int) - i + w.conf.x_left_offset))
        (leftLabels w) (sortedLabels_nodup _) 0 j hj
    rw [Nat.zero_add] at h
    exact h
  · exact map_fst_posList _ _ _
  · have h :=
      alookup_posList (fun i => (i : Int) + w.conf.x_right_offset)
        (rightLabels w) (sortedLabels_nodup _) 0 j hj
    rw [Nat.zero_add] at h
    exact h
  · exact map_fst_posList _ _ _
  · have h :=
      alookup_posList (fun i => (i : Int)) (yLabels w)
        (sortedLabels_nodup _) 0 j hj
    rw [Nat.zero_add] at h
    exact h

/-- Witness for C2 on the specification's worked scenario. -/
theorem labels_indices_mapping_spec_witness :
    0 < (leftLabels wEx).length ∧
    wEx.compute_labels_indices_mapping.1.map Prod.fst = leftLabels wEx ∧
    alookup ((leftLabels wEx).get ⟨0, by decide⟩)
        wEx.compute_labels_indices_mapping.1 =
      some (-(((leftLabels wEx).length : Int) - ((0 : Nat) : Int) +
        wEx.conf.x_left_offset)) := by
  refine ⟨by decide, (labels_indices_mapping_spec wEx).1.1, ?_⟩
  exact (labels_indices_mapping_spec wEx).1.2 0 (by decide)

/-- C9: with nonnegative offsets, every left x position is at most
`-(1 + x_left_offset)`, hence negative; every right x position is at least
`x_right_offset`, hence nonnegative; so no position occurs on both sides. -/
theorem left_right_positions_disjoint (w : CSVWriter)
    (hl : 0 ≤ w.conf.x_left_offset) (hr : 0 ≤ w.conf.x_right_offset) :
    (∀ pr ∈ w.compute_labels_indices_mapping.1,
        pr.2 ≤ -(1 + w.conf.x_left_offset) ∧ pr.2 < 0) ∧
    (∀ pr ∈ w.compute_labels_indices_mapping.2.1,
        w.conf.x_right_offset ≤ pr.2 ∧ 0 ≤ pr.2) ∧
    (∀ pr ∈ w.compute_labels_indices_mapping.1,
      ∀ qr ∈ w.compute_labels_indices_mapping.2.1, pr.2 ≠ qr.2) := by
  have hleft : ∀ pr ∈ w.compute_labels_indices_mapping.1,
      pr.2 ≤ -(1 + w.conf.x_left_offset) ∧ pr.2 < 0 := by
    intro pr hpr
    have hv : pr.2 ∈ (w.compute_labels_indices_mapping.1).map Prod.snd :=
      List.mem_map_of_mem Prod.snd hpr
    obtain ⟨j, hj, hjv⟩ := mem_snd_posList _ _ _ _ hv
    refine ⟨?_, ?_⟩ <;> (rw [hjv]; omega)
  have hright : ∀ pr ∈ w.compute_labels_indices_mapping.2.1,
      w.conf.x_right_offset ≤ pr.2 ∧ 0 ≤ pr.2 := by
    intro pr hpr
    have hv : pr.2 ∈ (w.compute_labels_indices_mapping.2.1).map Prod.snd :=
      List.mem_map_of_mem Prod.snd hpr
    obtain ⟨j, hj, hjv⟩ := mem_snd_posList _ _ _ _ hv
    refine ⟨?_, ?_⟩ <;> (rw [hjv]; omega)
  refine ⟨hleft, hright, fun pr hpr qr hqr => ?_⟩
  have h1 := (hleft pr hpr).2
  have h2 := (hright qr hqr).2
  omega

/-- Witness for C9 on the specification's worked scenario. -/
theorem left_right_positions_disjoint_witness :
    (0 : Int) ≤ wEx.conf.x_left_offset ∧ (0 : Int) ≤ wEx.conf.x_right_offset ∧
    ("1", (-4 : Int)) ∈ wEx.compute_labels_indices_mapping.1 ∧
    ((-4 : Int) ≤ -(1 + wEx.conf.x_left_offset) ∧ (-4 : Int) < 0) := by
  refine ⟨by decide, by decide, by decide, ?_⟩
  exact (left_right_positions_disjoint wEx (by decide) (by decide)).1
    ("1", -4) (by decide)

/-- C4: with exactly one distinct year the divisor `len(years) - 1` is zero and
`compute_year_score_mapping` fails (the code's `ZeroDivisionError`, which the
specification surfaces as the insufficient-years error) instead of returning a
mapping. -/
theorem year_score_single_year_fails (w : CSVWriter) (h1 : w.years.length = 1) :
    w.compute_year_score_mapping = .error .divisionByZero := by
  simp [CSVWriter.compute_year_score_mapping, h1]

/-- Witness for C4: a writer with a single year. -/
theorem year_score_single_year_fails_witness :
    wEx1.years.length = 1 ∧
    wEx1.compute_year_score_mapping = .error .divisionByZero :=
  ⟨rfl, year_score_single_year_fails wEx1 rfl⟩

/-- C10: with an empty year set the divisor is `-1`, not zero, and the loop
body never runs: the result is the empty mapping, not an error. -/
theorem year_score_empty_years_ok (w : CSVWriter) (h : w.years = []) :
    w.compute_year_score_mapping = .ok [] := by
  simp [CSVWriter.compute_year_score_mapping, h, List.insertionSort, scoreList]

/-- Witness for C10: a writer with no years. -/
theorem year_score_empty_years_ok_witness :
    wEx0.years = [] ∧ wEx0.compute_year_score_mapping = .ok [] :=
  ⟨rfl, year_score_empty_years_ok wEx0 rfl⟩

/-- C3: with `N >= 2` distinct years, the i-th year in ascending order is
mapped to `i * (1000 / (N - 1))` (natural floor division); in particular the
increment is `1000 / (N - 1)` and `(N - 1) * (1000 / (N - 1)) <= 1000`. -/
theorem year_score_mapping_spec (w : CSVWriter) (hnd : w.years.Nodup)
    (hN : 2 ≤ w.years.length) :
    w.compute_year_score_mapping =
      .ok (scoreList ((1000 / (w.years.length - 1) : Nat) : Int)
        (List.insertionSort pyLe w.years) 0) ∧
    (∀ j, (hj : j < (List.insertionSort pyLe w.years).length) →
      alookup (List.insertionSort pyLe w.years)[j]
          (scoreList ((1000 / (w.years.length - 1) : Nat) : Int)
            (List.insertionSort pyLe w.years) 0) =
        some ((j : Int) * ((1000 / (w.years.length - 1) : Nat) : Int))) ∧
    ((w.years.length : Int) - 1) * ((1000 / (w.years.length - 1) : Nat) : Int) ≤ 1000 := by
  have hd : ((w.years.length : Int) - 1) = ((w.years.length - 1 : Nat) : Int) := by
    have : 1 ≤ w.years.length := by omega
    push_cast [this]
    ring
  have hdne : ((w.years.length : Int) - 1) ≠ 0 := by
    have : (2 : Int) ≤ (w.years.length : Int) := by exact_mod_cast hN
    omega
  have hfdiv : Int.fdiv 1000 ((w.years.length : Int) - 1) =
      ((1000 / (w.years.length - 1) : Nat) : Int) := by
    rw [hd, Int.fdiv_eq_ediv _ (by positivity)]
    norm_cast
  have hsortnd : (List.insertionSort pyLe w.years).Nodup :=
    (List.perm_insertionSort _ _).symm.nodup hnd
  refine ⟨?_, fun j hj => ?_, ?_⟩
  · simp only [CSVWriter.compute_year_score_mapping, if_neg hdne, hfdiv]
  · simpa using
      alookup_scoreList ((1000 / (w.years.length - 1) : Nat) : Int)
        (List.insertionSort pyLe w.years) hsortnd 0 j hj
  · have key : (w.years.length - 1) * (1000 / (w.years.length - 1)) ≤ 1000 := by
      rw [Nat.mul_comm]
      exact Nat.div_mul_le_self 1000 (w.years.length - 1)
    rw [hd]
    exact_mod_cast key

/-- Witness for C3 on the specification's worked scenario. -/
theorem year_score_mapping_spec_witness :
    wEx.years.Nodup ∧ 2 ≤ wEx.years.length ∧
    wEx.compute_year_score_mapping =
      .ok [("2018", 0), ("2019", 500), ("2020", 1000)] := by
  refine ⟨by decide, by decide, ?_⟩
  exact ((year_score_mapping_spec wEx (by decide) (by decide)).1).trans
    (congrArg Except.ok (by decide))

end BubblePlotPy

namespace BubblePlotPy

/-!  Bubble-dictionary aggregation lemmas. -/

theorem alookup_bumpBubble (b b0 : Bubble) (y : String)
    (bs : List (Bubble × Occurrence)) :
    alookup b (bumpBubble b0 y bs) =
      if b = b0 then
        match alookup b bs with
        | none => some (Occurrence.init y)
        | some o => some (o.update y)
      else alookup b bs := by
  induction bs with
  | nil =>
    by_cases h : b = b0
    · subst h
      simp [bumpBubble, alookup]
    · have hne : b0 ≠ b := fun hh => h hh.symm
      simp [bumpBubble, alookup, h, hne]
  | cons hd tl ih =>
    obtain ⟨b', o⟩ := hd
    by_cases h1 : b' = b0
    · subst h1
      by_cases h2 : b = b'
      · subst h2
        simp [bumpBubble, alookup]
      · have hne : b' ≠ b := fun hh => h2 hh.symm
        simp [bumpBubble, alookup, h2, hne]
    · by_cases h2 : b' = b
      · subst h2
        have hne : ¬ b' = b0 := h1
        simp [bumpBubble, alookup, hne, h1]
      · simp [bumpBubble, alookup, h1, h2, ih]

theorem map_fst_bumpBubble (b0 : Bubble) (y : String)
    (bs : List (Bubble × Occurrence)) :
    (bumpBubble b0 y bs).map Prod.fst =
      if b0 ∈ bs.map Prod.fst then bs.map Prod.fst
      else bs.map Prod.fst ++ [b0] := by
  induction bs with
  | nil => simp [bumpBubble]
  | cons hd tl ih =>
    obtain ⟨b', o⟩ := hd
    by_cases h : b' = b0
    · subst h
      simp [bumpBubble]
    · by_cases h2 : b0 ∈ tl.map Prod.fst <;>
        simp [bumpBubble, h, ih, h2, Ne.symm h]

theorem nodup_keys_bumpBubble (b0 : Bubble) (y : String)
    (bs : List (Bubble × Occurrence)) (hnd : (bs.map Prod.fst).Nodup) :
    ((bumpBubble b0 y bs).map Prod.fst).Nodup := by
  rw [map_fst_bumpBubble]
  by_cases h : b0 ∈ bs.map Prod.fst
  · simpa [h] using hnd
  · rw [if_neg h]
    exact hnd.append (List.nodup_singleton _) (by simpa using h)

theorem nodup_keys_foldBump (obs : List (Bubble × String))
    (bs : List (Bubble × Occurrence)) (hnd : (bs.map Prod.fst).Nodup) :
    ((foldBump bs obs).map Prod.fst).Nodup := by
  induction obs generalizing bs with
  | nil => exact hnd
  | cons t rest ih =>
    exact ih (bumpBubble t.1 t.2 bs) (nodup_keys_bumpBubble t.1 t.2 bs hnd)

theorem aggObs_append_singleton (obs : List (Bubble × String))
    (t : Bubble × String) :
    aggObs (obs ++ [t]) = bumpBubble t.1 t.2 (aggObs obs) := by
  simp [aggObs, foldBump, List.foldl_append]

theorem obsContrib_append_singleton (obs : List (Bubble × String))
    (t : Bubble × String) (b : Bubble) :
    obsContrib (obs ++ [t]) b =
      obsContrib obs b ++ if t.1 = b then [t] else [] := by
  by_cases h : t.1 = b <;> simp [obsContrib, List.filter_append, h]

theorem minYearsObs_append_singleton (c : List (Bubble × String))
    (t : Bubble × String) :
    minYearsObs (c ++ [t]) =
      if c = [] then t.2 else minStr (minYearsObs c) t.2 := by
  cases c with
  | nil => simp [minYearsObs]
  | cons t0 r => simp [minYearsObs, List.foldl_append]

theorem lookup_aggObs (obs : List (Bubble × String)) (b : Bubble) :
    alookup b (aggObs obs) = obsSpec obs b := by
  induction obs using List.reverseRecOn with
  | nil => simp [aggObs, foldBump, obsSpec, obsContrib, alookup]
  | append_singleton obs t ih =>
    rw [aggObs_append_singleton, alookup_bumpBubble, ih]
    by_cases h : b = t.1
    · have h' : t.1 = b := h.symm
      by_cases hc : obsContrib obs b = []
      · simp [obsSpec, obsContrib_append_singleton, h', hc,
          minYearsObs_append_singleton, Occurrence.init, minYearsObs]
      · simp [obsSpec, obsContrib_append_singleton, h', hc,
          minYearsObs_append_singleton, Occurrence.update]
    · have h' : ¬ t.1 = b := fun hh => h hh.symm
      simp [obsSpec, obsContrib_append_singleton, h', h]

theorem foldl_minStr_mem (l : List (Bubble × String)) (a : String) :
    l.foldl (fun acc t => minStr acc t.2) a = a ∨
      l.foldl (fun acc t => minStr acc t.2) a ∈ l.map Prod.snd := by
  induction l generalizing a with
  | nil => exact Or.inl rfl
  | cons t r ih =>
    rw [List.foldl_cons]
    rcases ih (minStr a t.2) with h | h
    · rcases minStr_eq_or a t.2 with h2 | h2
      · exact Or.inl (h.trans h2)
      · refine Or.inr ?_
        rw [h, h2, List.map_cons]
        exact List.mem_cons_self _ _
    · refine Or.inr ?_
      rw [List.map_cons]
      exact List.mem_cons_of_mem _ h

theorem foldl_minStr_le_start (l : List (Bubble × String)) (a : String) :
    pyLe (l.foldl (fun acc t => minStr acc t.2) a) a := by
  induction l generalizing a with
  | nil => exact pyLe_refl a
  | cons t r ih =>
    exact pyLe_trans (ih (minStr a t.2)) (minStr_le_left a t.2)

theorem foldl_minStr_le_mem (l : List (Bubble × String)) (a : String)
    (t : Bubble × String) (ht : t ∈ l) :
    pyLe (l.foldl (fun acc t' => minStr acc t'.2) a) t.2 := by
  induction l generalizing a with
  | nil => simp at ht
  | cons t0 r ih =>
    rw [List.foldl_cons]
    rcases List.mem_cons.mp ht with h | h
    · subst h
      exact pyLe_trans (foldl_minStr_le_start r (minStr a t.2))
        (minStr_le_right a t.2)
    · exact ih (minStr a t0.2) h

end BubblePlotPy

namespace BubblePlotPy

theorem minYearsObs_mem (c : List (Bubble × String)) (hc : c ≠ []) :
    minYearsObs c ∈ c.map Prod.snd := by
  cases c with
  | nil => exact absurd rfl hc
  | cons t r =>
    rcases foldl_minStr_mem r t.2 with h | h
    · rw [List.map_cons]
      rw [minYearsObs]
      rw [h]
      exact List.mem_cons_self _ _
    · rw [List.map_cons]
      rw [minYearsObs]
      exact List.mem_cons_of_mem _ h

theorem minYearsObs_le (c : List (Bubble × String)) (t : Bubble × String)
    (ht : t ∈ c) : pyLe (minYearsObs c) t.2 := by
  cases c with
  | nil => simp at ht
  | cons t0 r =>
    rw [minYearsObs]
    rcases List.mem_cons.mp ht with h | h
    · subst h
      exact foldl_minStr_le_start r t.2
    · exact foldl_minStr_le_mem r t0.2 t h

/-!  Aggregation of well-formed records. -/

theorem updateState_ok (p : BubblePlot) (entry : Record) (year : String)
    (lxl lxr ly : String)
    (hl : alookup p.x_axis.left.facet entry = some lxl)
    (hr : alookup p.x_axis.right.facet entry = some lxr)
    (hy : alookup p.y_axis entry = some ly) :
    p.updateState entry year =
      (⟨⟨⟨p.x_axis.left.facet,
           bumpBubble ⟨lxl, ly⟩ year p.x_axis.left.bubbles⟩,
         ⟨p.x_axis.right.facet,
           bumpBubble ⟨lxr, ly⟩ year p.x_axis.right.bubbles⟩⟩,
        p.y_axis⟩, none) := by
  unfold BubblePlot.updateState SplitXAxis.update
  rw [hl, hy, hr]

theorem obsOf_cons_some (facet y_axis class_year : String) (e : Record)
    (rest : List Record) (lx ly yr : String)
    (h1 : alookup facet e = some lx) (h2 : alookup y_axis e = some ly)
    (h3 : alookup class_year e = some yr) :
    obsOf facet y_axis class_year (e :: rest) =
      (⟨lx, ly⟩, yr) :: obsOf facet y_axis class_year rest := by
  simp [obsOf, List.filterMap_cons, h1, h2, h3]

theorem computeOccAux_ok (conf : Config) (entries : List Record) :
    ∀ (p : BubblePlot) (ys : List String),
    (∀ e ∈ entries,
      (alookup p.x_axis.left.facet e).isSome ∧
      (alookup p.x_axis.right.facet e).isSome ∧
      (alookup p.y_axis e).isSome ∧ (alookup conf.class_year e).isSome) →
    computeOccAux conf entries p ys =
      ((⟨⟨⟨p.x_axis.left.facet,
            foldBump p.x_axis.left.bubbles
              (obsOf p.x_axis.left.facet p.y_axis conf.class_year entries)⟩,
          ⟨p.x_axis.right.facet,
            foldBump p.x_axis.right.bubbles
              (obsOf p.x_axis.right.facet p.y_axis conf.class_year entries)⟩⟩,
         p.y_axis⟩,
        (yearsOfRecords conf.class_year entries).foldl
          (fun acc y => addYear y acc) ys), none) := by
  induction entries with
  | nil =>
    intro p ys _
    simp [computeOccAux, obsOf, foldBump, yearsOfRecords]
  | cons e rest ih =>
    intro p ys h
    obtain ⟨hl, hr, hy, hyr⟩ := h e (List.mem_cons_self e rest)
    obtain ⟨lxl, hl⟩ := Option.isSome_iff_exists.mp hl
    obtain ⟨lxr, hr⟩ := Option.isSome_iff_exists.mp hr
    obtain ⟨ly, hy⟩ := Option.isSome_iff_exists.mp hy
    obtain ⟨yr, hyr⟩ := Option.isSome_iff_exists.mp hyr
    have hstep : computeOccAux conf (e :: rest) p ys =
        computeOccAux conf rest
          (⟨⟨⟨p.x_axis.left.facet,
               bumpBubble ⟨lxl, ly⟩ yr p.x_axis.left.bubbles⟩,
             ⟨p.x_axis.right.facet,
               bumpBubble ⟨lxr, ly⟩ yr p.x_axis.right.bubbles⟩⟩,
            p.y_axis⟩) (addYear yr ys) := by
      simp only [computeOccAux, hyr, updateState_ok p e yr lxl lxr ly hl hr hy]
    rw [hstep,
      ih ⟨⟨⟨p.x_axis.left.facet,
             bumpBubble ⟨lxl, ly⟩ yr p.x_axis.left.bubbles⟩,
           ⟨p.x_axis.right.facet,
             bumpBubble ⟨lxr, ly⟩ yr p.x_axis.right.bubbles⟩⟩,
          p.y_axis⟩ (addYear yr ys)
        (fun e' he' => h e' (List.mem_cons_of_mem e he'))]
    rw [obsOf_cons_some _ _ _ _ _ _ _ _ hl hy hyr,
      obsOf_cons_some _ _ _ _ _ _ _ _ hr hy hyr]
    rw [show yearsOfRecords conf.class_year (e :: rest) =
        yr :: yearsOfRecords conf.class_year rest by
      simp [yearsOfRecords, List.filterMap_cons, hyr]]
    rfl

end BubblePlotPy

namespace BubblePlotPy

theorem obsOf_contrib_eq (facet y_axis class_year : String)
    (entries : List Record) (b : Bubble)
    (hS : ∀ e ∈ entries, (alookup facet e).isSome ∧ (alookup y_axis e).isSome ∧
      (alookup class_year e).isSome) :
    (obsContrib (obsOf facet y_axis class_year entries) b).map Prod.snd =
      yearsOfRecords class_year (contribFor facet y_axis entries b) ∧
    (obsContrib (obsOf facet y_axis class_year entries) b).length =
      (contribFor facet y_axis entries b).length := by
  induction entries with
  | nil => simp [obsOf, obsContrib, contribFor, yearsOfRecords]
  | cons e rest ih =>
    obtain ⟨hx, hy, hc⟩ := hS e (List.mem_cons_self e rest)
    obtain ⟨lx, hx⟩ := Option.isSome_iff_exists.mp hx
    obtain ⟨ly, hy⟩ := Option.isSome_iff_exists.mp hy
    obtain ⟨yr, hc⟩ := Option.isSome_iff_exists.mp hc
    obtain ⟨ihm, ihl⟩ := ih (fun e' he' => hS e' (List.mem_cons_of_mem e he'))
    rw [obsOf_cons_some _ _ _ _ _ _ _ _ hx hy hc]
    by_cases hb : (⟨lx, ly⟩ : Bubble) = b
    · subst hb
      rw [show obsContrib ((⟨lx, ly⟩, yr) ::
            obsOf facet y_axis class_year rest) ⟨lx, ly⟩ =
          (⟨lx, ly⟩, yr) :: obsContrib (obsOf facet y_axis class_year rest)
            ⟨lx, ly⟩ by
        simp [obsContrib]]
      rw [show contribFor facet y_axis (e :: rest) ⟨lx, ly⟩ =
          e :: contribFor facet y_axis rest ⟨lx, ly⟩ by
        simp [contribFor, List.filter_cons, hx, hy]]
      constructor
      · rw [List.map_cons, ihm]
        simp [yearsOfRecords, List.filterMap_cons, hc]
      · simp [ihl]
    · have hcond : ¬ (alookup facet e = some b.label_x ∧
          alookup y_axis e = some b.label_y) := by
        rintro ⟨h1, h2⟩
        rw [hx] at h1
        rw [hy] at h2
        apply hb
        obtain ⟨bx, byv⟩ := b
        simp only [Option.some.injEq] at h1 h2
        simp [h1, h2]
      rw [show obsContrib ((⟨lx, ly⟩, yr) ::
            obsOf facet y_axis class_year rest) b =
          obsContrib (obsOf facet y_axis class_year rest) b by
        simp [obsContrib, hb]]
      rw [show contribFor facet y_axis (e :: rest) b =
          contribFor facet y_axis rest b by
        simp [contribFor, List.filter_cons, hcond]]
      exact ⟨ihm, ihl⟩

theorem aggObs_side_spec (facet y_axis class_year : String)
    (entries : List Record) (b : Bubble)
    (hS : ∀ e ∈ entries, (alookup facet e).isSome ∧ (alookup y_axis e).isSome ∧
      (alookup class_year e).isSome) :
    (∀ o, alookup b (aggObs (obsOf facet y_axis class_year entries)) = some o →
      o.occurrence = (contribFor facet y_axis entries b).length ∧
      o.year ∈ yearsOfRecords class_year (contribFor facet y_axis entries b) ∧
      ∀ y ∈ yearsOfRecords class_year (contribFor facet y_axis entries b),
        pyLe o.year y) ∧
    (alookup b (aggObs (obsOf facet y_axis class_year entries)) = none →
      contribFor facet y_axis entries b = []) := by
  obtain ⟨hmap, hlen⟩ := obsOf_contrib_eq facet y_axis class_year entries b hS
  constructor
  · intro o ho
    rw [lookup_aggObs] at ho
    unfold obsSpec at ho
    by_cases hcnil : obsContrib (obsOf facet y_axis class_year entries) b = []
    · simp [hcnil] at ho
    · rw [if_neg hcnil] at ho
      have hoe := Option.some.inj ho
      refine ⟨?_, ?_, ?_⟩
      · rw [← hoe, ← hlen]
      · rw [← hoe, ← hmap]
        exact minYearsObs_mem _ hcnil
      · intro y hy
        rw [← hmap] at hy
        obtain ⟨t, ht, hty⟩ := List.mem_map.mp hy
        rw [← hoe, ← hty]
        exact minYearsObs_le _ t ht
  · intro ho
    rw [lookup_aggObs] at ho
    unfold obsSpec at ho
    by_cases hcnil : obsContrib (obsOf facet y_axis class_year entries) b = []
    · have hz : (contribFor facet y_axis entries b).length = 0 := by
        rw [← hlen, hcnil]
        rfl
      exact List.length_eq_zero.mp hz
    · rw [if_neg hcnil] at ho
      exact absurd ho (by simp)

theorem compute_occurences_from_ok (entries : List Record) (plan : Facets)
    (conf : Config) (hAll : ∀ e ∈ entries, hasAllFields plan conf e) :
    compute_occurences_from entries plan conf =
      .ok (⟨⟨⟨plan.x_left,
              aggObs (obsOf plan.x_left plan.y conf.class_year entries)⟩,
            ⟨plan.x_right,
              aggObs (obsOf plan.x_right plan.y conf.class_year entries)⟩⟩,
           plan.y⟩,
          (yearsOfRecords conf.class_year entries).foldl
            (fun acc y => addYear y acc) []) := by
  have h := computeOccAux_ok conf entries (BubblePlot.init plan) []
    (fun e he => hAll e he)
  simp only [compute_occurences_from, h]
  rfl

end BubblePlotPy

namespace BubblePlotPy

/-- C1: after aggregating records that all carry the three facet fields and the
year field, each Split Axis Side's mapping has pairwise-distinct bubbles; a
bubble present maps to an occurrence whose count is the number of records
whose facet values form exactly that (x-label, y-label) pair on that side and
whose year is the minimum (in lexicographic order) of those records' years; a
bubble with no contributing record is absent. -/
theorem bubble_occurrence_spec (entries : List Record) (plan : Facets)
    (conf : Config) (hAll : ∀ e ∈ entries, hasAllFields plan conf e)
    (plot : BubblePlot) (years : List String)
    (hok : compute_occurences_from entries plan conf = .ok (plot, years)) :
    ((plot.x_axis.left.bubbles.map Prod.fst).Nodup ∧
      (plot.x_axis.right.bubbles.map Prod.fst).Nodup) ∧
    ((∀ b o, alookup b plot.x_axis.left.bubbles = some o →
        o.occurrence = (contribFor plan.x_left plan.y entries b).length ∧
        o.year ∈ yearsOfRecords conf.class_year
          (contribFor plan.x_left plan.y entries b) ∧
        ∀ y ∈ yearsOfRecords conf.class_year
            (contribFor plan.x_left plan.y entries b), pyLe o.year y) ∧
      (∀ b, alookup b plot.x_axis.left.bubbles = none →
        contribFor plan.x_left plan.y entries b = [])) ∧
    ((∀ b o, alookup b plot.x_axis.right.bubbles = some o →
        o.occurrence = (contribFor plan.x_right plan.y entries b).length ∧
        o.year ∈ yearsOfRecords conf.class_year
          (contribFor plan.x_right plan.y entries b) ∧
        ∀ y ∈ yearsOfRecords conf.class_year
            (contribFor plan.x_right plan.y entries b), pyLe o.year y) ∧
      (∀ b, alookup b plot.x_axis.right.bubbles = none →
        contribFor plan.x_right plan.y entries b = [])) := by
  have hco := compute_occurences_from_ok entries plan conf hAll
  rw [hok] at hco
  have hpair := Except.ok.inj hco
  have hp : plot = ⟨⟨⟨plan.x_left,
      aggObs (obsOf plan.x_left plan.y conf.class_year entries)⟩,
    ⟨plan.x_right,
      aggObs (obsOf plan.x_right plan.y conf.class_year entries)⟩⟩,
    plan.y⟩ := congrArg Prod.fst hpair
  subst hp
  have hSL : ∀ e ∈ entries, (alookup plan.x_left e).isSome ∧
      (alookup plan.y e).isSome ∧ (alookup conf.class_year e).isSome :=
    fun e he => ⟨(hAll e he).1, (hAll e he).2.2.1, (hAll e he).2.2.2⟩
  have hSR : ∀ e ∈ entries, (alookup plan.x_right e).isSome ∧
      (alookup plan.y e).isSome ∧ (alookup conf.class_year e).isSome :=
    fun e he => ⟨(hAll e he).2.1, (hAll e he).2.2.1, (hAll e he).2.2.2⟩
  refine ⟨⟨?_, ?_⟩, ⟨?_, ?_⟩, ⟨?_, ?_⟩⟩
  · exact nodup_keys_foldBump _ [] (by simp)
  · exact nodup_keys_foldBump _ [] (by simp)
  · exact fun b o ho =>
      (aggObs_side_spec plan.x_left plan.y conf.class_year entries b hSL).1 o ho
  · exact fun b hb =>
      (aggObs_side_spec plan.x_left plan.y conf.class_year entries b hSL).2 hb
  · exact fun b o ho =>
      (aggObs_side_spec plan.x_right plan.y conf.class_year entries b hSR).1 o ho
  · exact fun b hb =>
      (aggObs_side_spec plan.x_right plan.y conf.class_year entries b hSR).2 hb

/-- Witness for C1 on the specification's worked scenario: the bubble
("1", "0") on the left side has one contributing record and its year "2018"
is among — and minimal in — the years of that contribution. -/
theorem bubble_occurrence_spec_witness :
    (⟨(1 : Nat), "2018"⟩ : Occurrence).occurrence =
        (contribFor planEx.x_left planEx.y entriesEx ⟨"1", "0"⟩).length ∧
    (⟨(1 : Nat), "2018"⟩ : Occurrence).year ∈
        yearsOfRecords confEx.class_year
          (contribFor planEx.x_left planEx.y entriesEx ⟨"1", "0"⟩) := by
  have h := bubble_occurrence_spec entriesEx planEx confEx (by decide)
    plotEx yearsEx (by rfl)
  have h2 := h.2.1.1 ⟨"1", "0"⟩ ⟨1, "2018"⟩ (by decide)
  exact ⟨h2.1, h2.2.1⟩

end BubblePlotPy

namespace BubblePlotPy

/-- C6: on a record that has the y facet and the left x facet but lacks the
right x facet, `BubblePlot.update` fails with the error naming the right facet
and the x axis, and at that point the left side's bubble dictionary has
already been updated for the record (no rollback); the right side is
untouched. -/
theorem update_right_facet_missing (p : BubblePlot) (entry : Record)
    (year lxl ly : String)
    (hl : alookup p.x_axis.left.facet entry = some lxl)
    (hy : alookup p.y_axis entry = some ly)
    (hr : alookup p.x_axis.right.facet entry = none) :
    p.updateState entry year =
      (⟨⟨⟨p.x_axis.left.facet,
           bumpBubble ⟨lxl, ly⟩ year p.x_axis.left.bubbles⟩,
         p.x_axis.right⟩, p.y_axis⟩,
       some (.unknownFacet p.x_axis.right.facet .x)) ∧
    p.update entry year = .error (.unknownFacet p.x_axis.right.facet .x) := by
  have h1 : p.updateState entry year =
      (⟨⟨⟨p.x_axis.left.facet,
           bumpBubble ⟨lxl, ly⟩ year p.x_axis.left.bubbles⟩,
         p.x_axis.right⟩, p.y_axis⟩,
       some (.unknownFacet p.x_axis.right.facet .x)) := by
    unfold BubblePlot.updateState SplitXAxis.update
    rw [hl, hy, hr]
  refine ⟨h1, ?_⟩
  unfold BubblePlot.update
  rw [h1]

/-- Witness for C6: `plotEx` updated with a record lacking `"XR"` raises the
error naming the right facet on the x axis while the left side is mutated. -/
theorem update_right_facet_missing_witness :
    alookup plotEx.x_axis.right.facet entryNoXR = none ∧
    plotEx.update entryNoXR "2018" =
      .error (.unknownFacet plotEx.x_axis.right.facet .x) ∧
    (plotEx.updateState entryNoXR "2018").1.x_axis.left.bubbles =
      bumpBubble ⟨"1", "0"⟩ "2018" plotEx.x_axis.left.bubbles := by
  have h := update_right_facet_missing plotEx entryNoXR "2018" "1" "0"
    (by rfl) (by rfl) (by rfl)
  refine ⟨by rfl, h.2, ?_⟩
  rw [h.1]

theorem computeOccAux_append_of_ok (conf : Config) (pre l : List Record) :
    ∀ (p : BubblePlot) (ys : List String) (p' : BubblePlot) (ys' : List String),
    computeOccAux conf pre p ys = ((p', ys'), none) →
    computeOccAux conf (pre ++ l) p ys = computeOccAux conf l p' ys' := by
  induction pre with
  | nil =>
    intro p ys p' ys' h
    have h1 := congrArg (fun q => q.1.1) h
    have h2 := congrArg (fun q => q.1.2) h
    simp only [computeOccAux] at h1 h2
    rw [List.nil_append, h1, h2]
  | cons e rest ih =>
    intro p ys p' ys' h
    cases halt : alookup conf.class_year e with
    | none =>
      rw [computeOccAux] at h
      rw [halt] at h
      exact absurd (congrArg Prod.snd h) (by simp)
    | some yr =>
      rcases hust : p.updateState e yr with ⟨p2, oe⟩
      cases oe with
      | none =>
        simp only [computeOccAux, halt, hust] at h
        rw [List.cons_append]
        simp only [computeOccAux, halt, hust]
        exact ih p2 (addYear yr ys) p' ys' h
      | some e2 =>
        simp only [computeOccAux, halt, hust] at h
        exact absurd (congrArg Prod.snd h) (by simp)

theorem computeOccAux_missing_year (conf : Config) (bad : Record)
    (rest : List Record) (p : BubblePlot) (ys : List String)
    (hbad : alookup conf.class_year bad = none) :
    computeOccAux conf (bad :: rest) p ys =
      ((p, ys), some (.missingKey conf.class_year)) := by
  simp only [computeOccAux, hbad]

theorem updateState_error_shape (p : BubblePlot) (entry : Record)
    (year : String) (p' : BubblePlot) (err : Err)
    (h : p.updateState entry year = (p', some err)) :
    ∃ n a, err = Err.unknownFacet n a := by
  unfold BubblePlot.updateState SplitXAxis.update at h
  cases halx : alookup p.x_axis.left.facet entry with
  | none =>
    rw [halx] at h
    have := Option.some.inj (congrArg Prod.snd h)
    exact ⟨p.x_axis.left.facet, .x, this.symm⟩
  | some lx =>
    rw [halx] at h
    cases haly : alookup p.y_axis entry with
    | none =>
      rw [haly] at h
      have := Option.some.inj (congrArg Prod.snd h)
      exact ⟨p.y_axis, .y, this.symm⟩
    | some ly =>
      rw [haly] at h
      cases harx : alookup p.x_axis.right.facet entry with
      | none =>
        rw [harx] at h
        have := Option.some.inj (congrArg Prod.snd h)
        exact ⟨p.x_axis.right.facet, .x, this.symm⟩
      | some rx =>
        rw [harx] at h
        exact absurd (congrArg Prod.snd h) (by simp)

theorem missingKey_error_implies (conf : Config) :
    ∀ (entries : List Record) (p : BubblePlot) (ys : List String) (k : String),
    (computeOccAux conf entries p ys).2 = some (.missingKey k) →
    ∃ e ∈ entries, alookup conf.class_year e = none := by
  intro entries
  induction entries with
  | nil =>
    intro p ys k h
    simp [computeOccAux] at h
  | cons e rest ih =>
    intro p ys k h
    cases halt : alookup conf.class_year e with
    | none => exact ⟨e, List.mem_cons_self e rest, halt⟩
    | some yr =>
      rcases hust : p.updateState e yr with ⟨p2, oe⟩
      cases oe with
      | none =>
        simp only [computeOccAux, halt, hust] at h
        obtain ⟨e', he', h2⟩ := ih p2 (addYear yr ys) k h
        exact ⟨e', List.mem_cons_of_mem _ he', h2⟩
      | some err =>
        simp only [computeOccAux, halt, hust] at h
        obtain ⟨n, a, rfl⟩ := updateState_error_shape p e yr p2 err hust
        simp at h

end BubblePlotPy

namespace BubblePlotPy

/-- C8: `compute_occurences_from` fails with the `KeyError` naming the
configured year field at the first record lacking that field: with the records
before it well formed, the state at the failure is exactly the state after
aggregating them (the failing record contributed nothing); and conversely the
year-field `KeyError` only arises when some record lacks the year field. -/
theorem missing_year_first_failure (conf : Config) (plan : Facets)
    (pre : List Record) (bad : Record) (rest : List Record)
    (hPre : ∀ e ∈ pre, hasAllFields plan conf e)
    (hbad : alookup conf.class_year bad = none) :
    compute_occurences_from (pre ++ bad :: rest) plan conf =
      .error (.missingKey conf.class_year) ∧
    computeOccAux conf (pre ++ bad :: rest) (BubblePlot.init plan) [] =
      ((computeOccAux conf pre (BubblePlot.init plan) []).1,
        some (.missingKey conf.class_year)) ∧
    (computeOccAux conf pre (BubblePlot.init plan) []).2 = none ∧
    (∀ entries : List Record,
      compute_occurences_from entries plan conf =
          .error (.missingKey conf.class_year) →
      ∃ e ∈ entries, alookup conf.class_year e = none) := by
  have hpre := computeOccAux_ok conf pre (BubblePlot.init plan) []
    (fun e he => hPre e he)
  have hnone : (computeOccAux conf pre (BubblePlot.init plan) []).2 = none :=
    congrArg Prod.snd hpre
  have hsplit : computeOccAux conf pre (BubblePlot.init plan) [] =
      (((computeOccAux conf pre (BubblePlot.init plan) []).1.1,
        (computeOccAux conf pre (BubblePlot.init plan) []).1.2), none) := by
    rw [← hnone]
  have happ := computeOccAux_append_of_ok conf pre (bad :: rest)
    (BubblePlot.init plan) [] _ _ hsplit
  have hbadstep := computeOccAux_missing_year conf bad rest
    (computeOccAux conf pre (BubblePlot.init plan) []).1.1
    (computeOccAux conf pre (BubblePlot.init plan) []).1.2 hbad
  have hfull := happ.trans hbadstep
  refine ⟨?_, ?_, hnone, ?_⟩
  · simp only [compute_occurences_from, hfull]
  · exact hfull
  · intro entries hE
    rcases hq : computeOccAux conf entries (BubblePlot.init plan) [] with ⟨st, oe⟩
    cases oe with
    | none =>
      rw [compute_occurences_from, hq] at hE
      exact absurd hE (by simp)
    | some e2 =>
      rw [compute_occurences_from, hq] at hE
      have he2 : e2 = .missingKey conf.class_year := by
        have := hE
        simp only [Except.error.injEq] at this
        exact this
      apply missingKey_error_implies conf entries (BubblePlot.init plan) []
        conf.class_year
      rw [hq, he2]

/-- Witness for C8: second record lacks the year field; the run fails with the
`KeyError` for `"year"` while the prefix aggregated cleanly. -/
theorem missing_year_first_failure_witness :
    alookup confEx.class_year badRecEx = none ∧
    compute_occurences_from
        ([[("Y", "0"), ("XL", "1"), ("XR", "2"), ("year", "2018")]] ++
          badRecEx :: []) planEx confEx =
      .error (.missingKey confEx.class_year) ∧
    (computeOccAux confEx
        [[("Y", "0"), ("XL", "1"), ("XR", "2"), ("year", "2018")]]
        (BubblePlot.init planEx) []).2 = none := by
  have h := missing_year_first_failure confEx planEx
    [[("Y", "0"), ("XL", "1"), ("XR", "2"), ("year", "2018")]] badRecEx []
    (by decide) (by rfl)
  exact ⟨by rfl, h.1, h.2.2.1⟩

end BubblePlotPy

namespace BubblePlotPy

theorem obsSpec_perm {obs obs' : List (Bubble × String)}
    (hperm : obs.Perm obs') (b : Bubble) : obsSpec obs b = obsSpec obs' b := by
  have hcp : (obsContrib obs b).Perm (obsContrib obs' b) := by
    unfold obsContrib
    exact hperm.filter _
  unfold obsSpec
  by_cases hc : obsContrib obs b = []
  · have hc' : obsContrib obs' b = [] := by
      have hl := hcp.length_eq
      rw [hc] at hl
      exact List.length_eq_zero.mp hl.symm
    rw [if_pos hc, if_pos hc']
  · have hc' : obsContrib obs' b ≠ [] := by
      intro hh
      apply hc
      have hl := hcp.length_eq
      rw [hh] at hl
      exact List.length_eq_zero.mp hl
    rw [if_neg hc, if_neg hc']
    have hmin : minYearsObs (obsContrib obs b) =
        minYearsObs (obsContrib obs' b) := by
      apply pyLe_antisymm
      · obtain ⟨t, ht, hts⟩ := List.mem_map.mp (minYearsObs_mem _ hc')
        rw [← hts]
        exact minYearsObs_le _ t (hcp.mem_iff.mpr ht)
      · obtain ⟨t, ht, hts⟩ := List.mem_map.mp (minYearsObs_mem _ hc)
        rw [← hts]
        exact minYearsObs_le _ t (hcp.mem_iff.mp ht)
    rw [hcp.length_eq, hmin]

theorem mem_foldl_addYear (l : List String) :
    ∀ (ys : List String) (y : String),
    (y ∈ l.foldl (fun acc a => addYear a acc) ys ↔ y ∈ ys ∨ y ∈ l) := by
  induction l with
  | nil => simp
  | cons a rest ih =>
    intro ys y
    rw [List.foldl_cons, ih]
    unfold addYear
    by_cases h : a ∈ ys
    · rw [if_pos h]
      simp only [List.mem_cons]
      constructor
      · rintro (hy | hy)
        · exact Or.inl hy
        · exact Or.inr (Or.inr hy)
      · rintro (hy | hy | hy)
        · exact Or.inl hy
        · subst hy
          exact Or.inl h
        · exact Or.inr hy
    · rw [if_neg h]
      simp only [List.mem_append, List.mem_singleton, List.mem_cons]
      tauto

/-- C7: aggregating a permutation of the records yields the same result: the
year sets are equal as sets, and both sides' bubble dictionaries are equal as
mappings (same occurrence count and earliest year for every bubble). -/
theorem aggregation_perm_invariant (entries entries' : List Record)
    (plan : Facets) (conf : Config) (hperm : entries.Perm entries')
    (hAll : ∀ e ∈ entries, hasAllFields plan conf e)
    (plot plot' : BubblePlot) (years years' : List String)
    (hok : compute_occurences_from entries plan conf = .ok (plot, years))
    (hok' : compute_occurences_from entries' plan conf = .ok (plot', years')) :
    (∀ y : String, y ∈ years ↔ y ∈ years') ∧
    (∀ b : Bubble, alookup b plot.x_axis.left.bubbles =
        alookup b plot'.x_axis.left.bubbles) ∧
    (∀ b : Bubble, alookup b plot.x_axis.right.bubbles =
        alookup b plot'.x_axis.right.bubbles) := by
  have hAll' : ∀ e ∈ entries', hasAllFields plan conf e :=
    fun e he => hAll e (hperm.mem_iff.mpr he)
  have h1 := compute_occurences_from_ok entries plan conf hAll
  have h2 := compute_occurences_from_ok entries' plan conf hAll'
  rw [hok] at h1
  rw [hok'] at h2
  have hp1 : plot = _ := congrArg Prod.fst (Except.ok.inj h1)
  have hy1 : years = _ := congrArg Prod.snd (Except.ok.inj h1)
  have hp2 : plot' = _ := congrArg Prod.fst (Except.ok.inj h2)
  have hy2 : years' = _ := congrArg Prod.snd (Except.ok.inj h2)
  subst hp1
  subst hy1
  subst hp2
  subst hy2
  have hobsL : (obsOf plan.x_left plan.y conf.class_year entries).Perm
      (obsOf plan.x_left plan.y conf.class_year entries') :=
    hperm.filterMap _
  have hobsR : (obsOf plan.x_right plan.y conf.class_year entries).Perm
      (obsOf plan.x_right plan.y conf.class_year entries') :=
    hperm.filterMap _
  have hyrs : (yearsOfRecords conf.class_year entries).Perm
      (yearsOfRecords conf.class_year entries') :=
    hperm.filterMap _
  refine ⟨?_, ?_, ?_⟩
  · intro y
    rw [mem_foldl_addYear, mem_foldl_addYear]
    simp [hyrs.mem_iff]
  · intro b
    have ha : alookup b (aggObs (obsOf plan.x_left plan.y conf.class_year
        entries)) = alookup b (aggObs (obsOf plan.x_left plan.y
        conf.class_year entries')) := by
      rw [lookup_aggObs, lookup_aggObs]
      exact obsSpec_perm hobsL b
    exact ha
  · intro b
    have ha : alookup b (aggObs (obsOf plan.x_right plan.y conf.class_year
        entries)) = alookup b (aggObs (obsOf plan.x_right plan.y
        conf.class_year entries')) := by
      rw [lookup_aggObs, lookup_aggObs]
      exact obsSpec_perm hobsR b
    exact ha

/-- Witness for C7: `entriesExPerm` is a permutation of `entriesEx`; both runs
agree on the year set and on the bubble ("1", "0"). -/
theorem aggregation_perm_invariant_witness :
    entriesEx.Perm entriesExPerm ∧
    ("2018" ∈ yearsEx ↔ "2018" ∈ yearsExPerm) ∧
    alookup ⟨"1", "0"⟩ plotEx.x_axis.left.bubbles =
      alookup ⟨"1", "0"⟩ plotExPerm.x_axis.left.bubbles := by
  have h := aggregation_perm_invariant entriesEx entriesExPerm planEx confEx
    (by decide) (by decide) plotEx plotExPerm yearsEx yearsExPerm
    (by rfl) (by rfl)
  exact ⟨by decide, h.1 "2018", h.2.1 ⟨"1", "0"⟩⟩

end BubblePlotPy

namespace BubblePlotPy

theorem filter_key_orderedInsert (k : Int) (a : Row) (l : List Row) :
    (List.orderedInsert rowLE a l).filter (fun t => decide (rowKey t = k)) =
      if rowKey a = k then
        a :: l.filter (fun t => decide (rowKey t = k))
      else l.filter (fun t => decide (rowKey t = k)) := by
  induction l with
  | nil =>
    by_cases h : rowKey a = k <;> simp [List.orderedInsert, h]
  | cons b t ih =>
    rw [List.orderedInsert]
    by_cases hab : rowLE a b
    · rw [if_pos hab]
      by_cases h : rowKey a = k <;> simp [List.filter_cons, h]
    · rw [if_neg hab]
      have hba : rowKey b < rowKey a := by
        unfold rowLE at hab
        omega
      rw [List.filter_cons, ih]
      by_cases hak : rowKey a = k
      · have hbk : ¬ rowKey b = k := by omega
        simp [hak, hbk, List.filter_cons]
      · simp [hak, List.filter_cons]

theorem filter_key_insertionSort (l : List Row) (k : Int) :
    (List.insertionSort rowLE l).filter (fun t => decide (rowKey t = k)) =
      l.filter (fun t => decide (rowKey t = k)) := by
  induction l with
  | nil => rfl
  | cons a t ih =>
    rw [List.insertionSort, filter_key_orderedInsert, ih]
    by_cases h : rowKey a = k <;> simp [h, List.filter_cons]

/-- C5: `save_plot` sorts the prepared rows by x index ascending with a stable
sort: the output is a permutation of the prepared rows (all left-side rows in
insertion order, then all right-side rows), it is sorted by x index, and for
every x index the rows carrying it keep their encounter order. -/
theorem save_plot_sorted_stable (w : CSVWriter)
    (year_score : List (String × Int)) (left_rows right_rows : List Row)
    (hys : w.compute_year_score_mapping = .ok year_score)
    (hlr : rowsFor w.plot.x_axis.left.bubbles
        w.compute_labels_indices_mapping.1
        w.compute_labels_indices_mapping.2.2 year_score = .ok left_rows)
    (hrr : rowsFor w.plot.x_axis.right.bubbles
        w.compute_labels_indices_mapping.2.1
        w.compute_labels_indices_mapping.2.2 year_score = .ok right_rows) :
    w.save_plot_data = .ok (List.insertionSort rowLE (left_rows ++ right_rows)) ∧
    List.Sorted rowLE (List.insertionSort rowLE (left_rows ++ right_rows)) ∧
    (List.insertionSort rowLE (left_rows ++ right_rows)).Perm
      (left_rows ++ right_rows) ∧
    ∀ k : Int,
      (List.insertionSort rowLE (left_rows ++ right_rows)).filter
          (fun t => decide (rowKey t = k)) =
        (left_rows ++ right_rows).filter (fun t => decide (rowKey t = k)) := by
  have hprep : w.prepared_bubbles_data w.compute_labels_indices_mapping.1
      w.compute_labels_indices_mapping.2.1 w.compute_labels_indices_mapping.2.2
      year_score = .ok (left_rows ++ right_rows) := by
    unfold CSVWriter.prepared_bubbles_data
    rw [hlr, hrr]
  refine ⟨?_, List.sorted_insertionSort _ _, List.perm_insertionSort _ _,
    fun k => filter_key_insertionSort _ k⟩
  unfold CSVWriter.save_plot_data
  simp only [hys, hprep]

/-- Witness for C5 on the specification's worked scenario. -/
theorem save_plot_sorted_stable_witness :
    wEx.compute_year_score_mapping =
      .ok [("2018", 0), ("2019", 500), ("2020", 1000)] ∧
    wEx.save_plot_data =
      .ok [(0, -4, 1, 0), (1, -3, 1, 1000), (2, -2, 1, 500),
           (0, 2, 1, 0), (1, 3, 1, 1000), (2, 4, 1, 500)] := by
  have h := save_plot_sorted_stable wEx
    [("2018", 0), ("2019", 500), ("2020", 1000)]
    [(0, -4, 1, 0), (1, -3, 1, 1000), (2, -2, 1, 500)]
    [(0, 2, 1, 0), (1, 3, 1, 1000), (2, 4, 1, 500)]
    (by rfl) (by rfl) (by rfl)
  exact ⟨by rfl, h.1.trans (congrArg Except.ok (by decide))⟩

end BubblePlotPy
